import Mathlib

/-!
Verification of the hospital queue-management backend.

This file gives a shallow embedding, in Lean, of the queue / doctor / visit
repository functions and of the statistics reducers of the repository, and
proves the specified properties about them.

Modelling conventions:
  - The MySQL store is a record of lists of rows (one list per table), in
    insertion order; SQLAlchemy first() is List.find?, count() is
    List.length of a filter, order_by(... .asc()) is a stable insertion
    sort on the relevant column.
  - Wall-clock inputs (datetime.now().isoformat(), date.today().isoformat())
    and generated uuids are passed in as explicit string parameters.
  - Python float columns (payment_amount) are modelled as rationals; none of
    the verified properties depends on binary floating-point rounding.
  - Python str.upper() and slicing are modelled character-wise (pyUpper,
    pyTake); datetime.fromisoformat is an external library function and is
    abstracted as a parameter fi : String -> Option Int giving an absolute
    timestamp, so the duration policies are proved for every parser.
  - created_at columns (DateTime, set on insert, never read by the verified
    code paths) are omitted from the row records.
-/

namespace HQMS

/-! ## Python-style string utilities -/

/-- Character of a decimal digit d (d < 10), as in decimal rendering. -/
def digitChar (d : Nat) : Char := Char.ofNat (48 + d)

/-- Fueled accumulation of the decimal digits of n, most significant first.
The fuel argument only makes the recursion structural; fuel = n is enough. -/
def decAux : Nat → Nat → List Char
  | 0, _ => []
  | fuel + 1, n => if n = 0 then [] else decAux fuel (n / 10) ++ [digitChar (n % 10)]

/-- Decimal rendering of a natural number, as Python str(n) / %d produce. -/
def decStr (n : Nat) : String := if n = 0 then "0" else String.mk (decAux n n)

/-- Python f-string {n:03d}: decimal digits of n left-padded with zeros to a
minimum width of 3 (wider numbers are rendered in full). -/
def pad3 (n : Nat) : String :=
  let s := decStr n
  if s.length < 3 then String.mk (List.replicate (3 - s.length) '0') ++ s else s

/-- Python s[:n] slicing (by code point). -/
def pyTake (s : String) (n : Nat) : String := String.mk (s.data.take n)

/-- Python s.upper(), modelled character-wise with ASCII Char.toUpper.
The real str.upper() applies the Unicode full case mapping, which can map
one code point to several (the German sharp s uppercases to the two
letters SS) and can therefore lengthen the string. This model is used only
structurally - the prefix of a queue number is the uppercased name - and
no theorem in this file relies on pyUpper preserving string length or on
the case mapping of non-ASCII letters. -/
def pyUpper (s : String) : String := String.mk (s.data.map Char.toUpper)

/-- Truthiness of an optional string column in Python: None and the empty
string are both falsy. -/
def pyTruthy : Option String → Bool
  | none => false
  | some s => s ≠ ""

/-- Python str.strip(): drop leading and trailing whitespace characters. -/
def pyStrip (s : String) : String :=
  String.mk (((s.data.dropWhile Char.isWhitespace).reverse.dropWhile Char.isWhitespace).reverse)

/-- Lexicographic less-or-equal on character lists, the comparison both SQL
(ordering ISO timestamp strings ascending) and Python sorted() perform on
the ASCII strings involved. -/
def lexLeb : List Char → List Char → Bool
  | [], _ => true
  | _ :: _, [] => false
  | a :: as, b :: bs => if a = b then lexLeb as bs else decide (a < b)

/-- Lexicographic less-or-equal on strings. -/
def strLeb (a b : String) : Bool := lexLeb a.data b.data

theorem lexLeb_total : ∀ as bs : List Char, lexLeb as bs = true ∨ lexLeb bs as = true
  | [], _ => Or.inl rfl
  | _ :: _, [] => Or.inr rfl
  | a :: as, b :: bs => by
    by_cases hab : a = b
    · subst hab
      rcases lexLeb_total as bs with h | h
      · exact Or.inl (by simpa [lexLeb] using h)
      · exact Or.inr (by simpa [lexLeb] using h)
    · rcases lt_or_gt_of_ne hab with h | h
      · exact Or.inl (by simp [lexLeb, hab, h])
      · exact Or.inr (by simp [lexLeb, Ne.symm hab, h])

theorem lexLeb_trans : ∀ as bs cs : List Char,
    lexLeb as bs = true → lexLeb bs cs = true → lexLeb as cs = true
  | [], _, _, _, _ => rfl
  | a :: as, [], _, h1, _ => by simp [lexLeb] at h1
  | a :: as, b :: bs, [], _, h2 => by simp [lexLeb] at h2
  | a :: as, b :: bs, c :: cs, h1, h2 => by
    by_cases hab : a = b <;> by_cases hbc : b = c
    · subst hab; subst hbc
      simp only [lexLeb, if_pos rfl] at h1 h2 ⊢
      exact lexLeb_trans as bs cs h1 h2
    · subst hab
      simp only [lexLeb, if_neg hbc] at h2 ⊢
      exact h2
    · subst hbc
      simp only [lexLeb, if_neg hab] at h1 ⊢
      exact h1
    · simp only [lexLeb, if_neg hab, if_neg hbc, decide_eq_true_eq] at h1 h2
      have hac : a < c := lt_trans h1 h2
      simp [lexLeb, ne_of_lt hac, hac]

/-! ## Data model: one record type per SQLAlchemy table (created_at omitted) -/

/-- Queue status enum; the stored column value is the Indonesian string. -/
inductive QueueStatus
  | waiting
  | in_service
  | completed
  | cancelled
deriving DecidableEq, Repr

/-- Stored string value of a status, as in schemas.QueueStatus. -/
def QueueStatus.value : QueueStatus → String
  | .waiting => "menunggu"
  | .in_service => "sedang_dilayani"
  | .completed => "selesai"
  | .cancelled => "dibatalkan"

/-- Row of the clinics table. -/
structure ClinicDB where
  id : String
  name : String
  description : Option String := none
  is_active : Bool
deriving DecidableEq, Repr

/-- Row of the doctors table. -/
structure DoctorDB where
  id : String
  name : String
  specialization : String
  clinic_id : String
  clinic_name : Option String
  phone : String
  is_available : Bool
deriving DecidableEq, Repr

/-- Row of the queues table; timestamps are stored as ISO strings. -/
structure QueueDB where
  id : String
  queue_number : String
  patient_id : String
  patient_name : String
  clinic_id : String
  clinic_name : String
  doctor_id : Option String
  doctor_name : Option String
  status : String
  registration_time : String
  called_time : Option String
  service_start_time : Option String
  service_end_time : Option String
  notes : Option String
deriving DecidableEq, Repr

/-- Row of the visits table. -/
structure VisitHistoryDB where
  id : String
  queue_id : String
  patient_id : String
  patient_name : String
  clinic_id : String
  clinic_name : String
  doctor_id : String
  doctor_name : String
  visit_date : String
  reason : String
  payment_amount : ℚ
  mode_of_payment : String
  mode_of_appointment : String
  appointment_status : String
deriving DecidableEq, Repr

/-- The relational store: the tables the verified functions touch. -/
structure DB where
  clinics : List ClinicDB
  doctors : List DoctorDB
  queues : List QueueDB
  visits : List VisitHistoryDB
deriving DecidableEq, Repr

/-- Number of queue rows for one clinic, as the count() query of create_queue. -/
def countClinic (db : DB) (clinic_id : String) : Nat :=
  (db.queues.filter (fun q => q.clinic_id == clinic_id)).length

/-! ## queues.py: create_queue -/

/-- Doctor validation block of create_queue: with a truthy doctor_id, the
doctor must exist, be available and belong to the clinic; returns the
doctor_name to denormalize (None when no doctor was requested). -/
def doctorCheck (db : DB) (clinic_id : String) (doctor_id : Option String) :
    Except String (Option String) :=
  match doctor_id with
  | none => .ok none
  | some did =>
    if did = "" then .ok none
    else
      match db.doctors.find? (fun d => d.id == did) with
      | none => .error "Dokter tidak ditemukan atau tidak tersedia"
      | some doctor =>
        if doctor.is_available && (doctor.clinic_id == clinic_id) then
          .ok (some doctor.name)
        else .error "Dokter tidak ditemukan atau tidak tersedia"

/-- queues.create_queue: validates the clinic (exists and active) and the
optional doctor, then inserts a waiting queue row numbered from the current
per-clinic row count. freshId stands for uuid4, now for
datetime.now().isoformat(). -/
def create_queue (db : DB) (freshId now : String)
    (patient_id patient_name clinic_id : String) (doctor_id : Option String) :
    Except String (QueueDB × DB) :=
  match db.clinics.find? (fun c => c.id == clinic_id) with
  | none => .error "Klinik tidak ditemukan atau tidak aktif"
  | some clinic =>
    if clinic.is_active = false then .error "Klinik tidak ditemukan atau tidak aktif"
    else
      match doctorCheck db clinic_id doctor_id with
      | .error e => .error e
      | .ok doctor_name =>
        let next_num := countClinic db clinic_id + 1
        let t := pyTake clinic.name 3
        let pfx := pyUpper (if t = "" then clinic.name else t)
        let q : QueueDB :=
          { id := freshId
            queue_number := pfx ++ pad3 next_num
            patient_id := patient_id
            patient_name := patient_name
            clinic_id := clinic_id
            clinic_name := clinic.name
            doctor_id := doctor_id
            doctor_name := doctor_name
            status := QueueStatus.waiting.value
            registration_time := now
            called_time := none
            service_start_time := none
            service_end_time := none
            notes := none }
        .ok (q, { db with queues := db.queues ++ [q] })

/-! ## queues.py: update_queue_status -/

/-- setattr(db_queue, key, value) for the string-typed queue columns reached
through kwargs; a key that is not an attribute is skipped (hasattr guard). -/
def setField (q : QueueDB) (k v : String) : QueueDB :=
  if k = "id" then { q with id := v }
  else if k = "queue_number" then { q with queue_number := v }
  else if k = "patient_id" then { q with patient_id := v }
  else if k = "patient_name" then { q with patient_name := v }
  else if k = "clinic_id" then { q with clinic_id := v }
  else if k = "clinic_name" then { q with clinic_name := v }
  else if k = "doctor_id" then { q with doctor_id := some v }
  else if k = "doctor_name" then { q with doctor_name := some v }
  else if k = "status" then { q with status := v }
  else if k = "registration_time" then { q with registration_time := v }
  else if k = "called_time" then { q with called_time := some v }
  else if k = "service_start_time" then { q with service_start_time := some v }
  else if k = "service_end_time" then { q with service_end_time := some v }
  else if k = "notes" then { q with notes := some v }
  else q

/-- Merge the kwargs dict: None values are skipped, others are setattr-ed. -/
def applyKwargs (q : QueueDB) (kwargs : List (String × Option String)) : QueueDB :=
  kwargs.foldl (fun acc p => match p.2 with
    | none => acc
    | some v => setField acc p.1 v) q

/-- Replace the first row with the given id (the row first() found and
update mutated in place). -/
def replaceFirst : List QueueDB → String → QueueDB → List QueueDB
  | [], _, _ => []
  | r :: rest, qid, q => if r.id == qid then q :: rest else r :: replaceFirst rest qid q

/-- The status assignment and status-dependent timestamp side effects of
update_queue_status: into in_service, called_time and service_start_time
are set to now only when currently falsy (None or empty); into completed,
service_end_time is overwritten unconditionally; other statuses touch no
timestamp. -/
def transitionStamp (q0 : QueueDB) (now : String) (status : QueueStatus) : QueueDB :=
  let q1 := { q0 with status := status.value }
  if status = QueueStatus.in_service then
    let qa := if pyTruthy q1.called_time then q1 else { q1 with called_time := some now }
    if pyTruthy qa.service_start_time then qa
    else { qa with service_start_time := some now }
  else if status = QueueStatus.completed then
    { q1 with service_end_time := some now }
  else q1

/-- queues.update_queue_status: sets the status column, applies the
status-dependent timestamp side effects, merges kwargs, and stores the row.
Returns None when the id does not exist. -/
def update_queue_status (db : DB) (now : String) (queue_id : String)
    (status : QueueStatus) (kwargs : List (String × Option String)) :
    Option (QueueDB × DB) :=
  match db.queues.find? (fun r => r.id == queue_id) with
  | none => none
  | some q0 =>
    let q3 := applyKwargs (transitionStamp q0 now status) kwargs
    some (q3, { db with queues := replaceFirst db.queues queue_id q3 })

/-! ## queues.py: delete_queue and get_queue_position -/

/-- Remove the first row with the given id. -/
def removeFirst : List QueueDB → String → List QueueDB
  | [], _ => []
  | r :: rest, qid => if r.id == qid then rest else r :: removeFirst rest qid

/-- queues.delete_queue: deletes the row when it exists; returns success. -/
def delete_queue (db : DB) (queue_id : String) : Bool × DB :=
  match db.queues.find? (fun r => r.id == queue_id) with
  | none => (false, db)
  | some _ => (true, { db with queues := removeFirst db.queues queue_id })

/-- Ordering of queue rows by registration_time (ISO strings compare
lexicographically), the order_by of get_queue_position and read_all_queues. -/
def regLE (a b : QueueDB) : Prop :=
  strLeb a.registration_time b.registration_time = true

instance : DecidableRel regLE := fun a b =>
  inferInstanceAs (Decidable (_ = true))

instance : IsTotal QueueDB regLE :=
  ⟨fun x y => lexLeb_total x.registration_time.data y.registration_time.data⟩

instance : IsTrans QueueDB regLE :=
  ⟨fun _ _ _ h h2 => lexLeb_trans _ _ _ h h2⟩

/-- The waiting queue rows of one clinic, sorted by registration_time
ascending (a stable sort models the SQL order_by). -/
def waitingSorted (db : DB) (clinic_id : String) : List QueueDB :=
  List.insertionSort regLE
    (db.queues.filter (fun r => r.clinic_id == clinic_id && r.status == QueueStatus.waiting.value))

/-- The enumerate(waiting, start=1) loop of get_queue_position. -/
def posLoop (qid : String) : Nat → List QueueDB → Nat
  | _, [] => 0
  | i, r :: rest => if r.id == qid then i else posLoop qid (i + 1) rest

/-- queues.get_queue_position: 0 when the id is absent or the row is not
waiting, else the 1-based index of the row among the clinic's waiting rows
in registration_time order. -/
def get_queue_position (db : DB) (queue_id : String) : Nat :=
  match db.queues.find? (fun r => r.id == queue_id) with
  | none => 0
  | some q =>
    if q.status ≠ QueueStatus.waiting.value then 0
    else posLoop queue_id 1 (waitingSorted db q.clinic_id)

/-! ## doctors.py: create_doctor -/

/-- Python int() on the digit segment produced by id.split("-")[1]; the
segment carries no sign, so non-empty all-digit strings parse, the rest
raise ValueError (here: none). -/
def pyIntDigits (s : String) : Option Nat :=
  if s ≠ "" && s.data.all Char.isDigit then
    some (s.data.foldl (fun a c => 10 * a + (c.toNat - 48)) 0)
  else none

/-- order_by(DoctorDB.id.desc()).first(): the row with the largest id. -/
def lastByIdDoctor (ds : List DoctorDB) : Option DoctorDB :=
  ds.foldl (fun acc d =>
    match acc with
    | none => some d
    | some m => if m.id < d.id then some d else some m) none

/-- Segment after the first dash of an id, Python id.split("-")[1] (the
startswith "doctor-" guard ensures the index exists). -/
def segAfterDash (s : String) : String :=
  ((s.splitOn "-").getD 1 "")

/-- doctors.create_doctor: requires only that the clinic EXISTS (the active
flag is not checked), generates the next doctor-NNN id from the largest
stored id, and inserts an available doctor with the clinic name
denormalized. -/
def create_doctor (db : DB) (name specialization clinic_id phone : String) :
    Except String (DoctorDB × DB) :=
  match db.clinics.find? (fun c => c.id == clinic_id) with
  | none => .error "Klinik tidak ditemukan"
  | some clinic =>
    let last_num :=
      match lastByIdDoctor db.doctors with
      | some l =>
        if l.id.startsWith "doctor-" then
          match pyIntDigits (segAfterDash l.id) with
          | some n => n
          | none => 0
        else 0
      | none => 0
    let d : DoctorDB :=
      { id := "doctor-" ++ pad3 (last_num + 1)
        name := name
        specialization := specialization
        clinic_id := clinic_id
        clinic_name := some clinic.name
        phone := phone
        is_available := true }
    .ok (d, { db with doctors := db.doctors ++ [d] })

/-! ## visits.py: create_visit -/

/-- visits.create_visit: unconditionally inserts a visit row with
visit_date = today (date.today().isoformat(), passed in) and
appointment_status "Completed". There is no check that the queue exists, is
completed, or has not been recorded against before. -/
def create_visit (db : DB) (freshId today : String)
    (queue_id patient_id patient_name clinic_id clinic_name doctor_id doctor_name
      reason : String) (payment_amount : ℚ) (mode_of_payment mode_of_appointment : String) :
    VisitHistoryDB × DB :=
  let v : VisitHistoryDB :=
    { id := freshId
      queue_id := queue_id
      patient_id := patient_id
      patient_name := patient_name
      clinic_id := clinic_id
      clinic_name := clinic_name
      doctor_id := doctor_id
      doctor_name := doctor_name
      visit_date := today
      reason := reason
      payment_amount := payment_amount
      mode_of_payment := mode_of_payment
      mode_of_appointment := mode_of_appointment
      appointment_status := "Completed" }
  (v, { db with visits := db.visits ++ [v] })

/-! ## Queue-lifecycle traces (for the numbering invariant) -/

/-- One queue-lifecycle operation: a registration or a deletion. -/
inductive QOp
  | qcreate (freshId now patient_id patient_name clinic_id : String)
      (doctor_id : Option String)
  | qdelete (queue_id : String)
deriving DecidableEq, Repr

/-- Run a trace of queue operations sequentially (one writer); the second
component collects the queue_number of every successful creation, in order. -/
def runOps (db : DB) : List QOp → DB × List String
  | [] => (db, [])
  | QOp.qcreate f n pid pn cid did :: rest =>
    match create_queue db f n pid pn cid did with
    | .ok (q, db2) =>
      let r := runOps db2 rest
      (r.1, q.queue_number :: r.2)
    | .error _ => runOps db rest
  | QOp.qdelete qid :: rest => runOps (delete_queue db qid).2 rest

/-- Whether an operation is a creation targeting the given clinic. -/
def isCreateFor (clinic_id : String) : QOp → Prop
  | QOp.qcreate _ _ _ _ cid _ => cid = clinic_id
  | QOp.qdelete _ => False

instance (cid : String) (op : QOp) : Decidable (isCreateFor cid op) := by
  cases op with
  | qcreate f n pid pn c did => exact inferInstanceAs (Decidable (c = cid))
  | qdelete q => exact inferInstanceAs (Decidable False)

/-- The queue-number prefix the clinic with this id currently yields. -/
def clinicPfx (db : DB) (clinic_id : String) : String :=
  match db.clinics.find? (fun c => c.id == clinic_id) with
  | some c => pyUpper (if pyTake c.name 3 = "" then c.name else pyTake c.name 3)
  | none => ""

/-! ## statistics.py helpers -/

/-- statistics._parse_iso, with datetime.fromisoformat abstracted as the
parser fi (absolute timestamps as integers): strip, treat empty as missing,
try the parser, and fall back to retrying without a trailing Z. -/
def parse_iso (fi : String → Option Int) (dt_str : Option String) : Option Int :=
  match dt_str with
  | none => none
  | some s0 =>
    let s := pyStrip s0
    if s = "" then none
    else
      match fi s with
      | some d => some d
      | none => if s.endsWith "Z" then fi (s.dropRight 1) else none

/-- statistics._month_key_from_string: the first 7 characters of the
stripped date string, or None when fewer than 7 remain (or the input is
missing or empty). -/
def month_key_from_string (date_str : Option String) : Option String :=
  match date_str with
  | none => none
  | some s0 =>
    if s0 = "" then none
    else
      let s := pyStrip s0
      if s.length < 7 then none else some (pyTake s 7)

/-- Python round(x, 2) on exact rationals: scale by 100, round half to even,
scale back. -/
def pyRound2 (x : ℚ) : ℚ :=
  let y := x * 100
  let f : ℤ := y.floor
  let r := y - (f : ℚ)
  if r < 1 / 2 then (f : ℚ) / 100
  else if 1 / 2 < r then ((f : ℚ) + 1) / 100
  else if f % 2 = 0 then (f : ℚ) / 100
  else ((f : ℚ) + 1) / 100

/-! ## statistics.py: financial_summary (monthly revenue) -/

/-- One bucket of the monthly_map dict: revenue sum and visit count. -/
structure MonthBucket where
  month : String
  revenue : ℚ
  visit_count : Nat
deriving DecidableEq, Repr

/-- Dict update monthly_map[key]: add the amount and bump the count in
place, or append a fresh bucket for an unseen key. -/
def addMonthly : List MonthBucket → String → ℚ → List MonthBucket
  | [], k, amt => [⟨k, amt, 1⟩]
  | b :: rest, k, amt =>
    if b.month == k then ⟨b.month, b.revenue + amt, b.visit_count + 1⟩ :: rest
    else b :: addMonthly rest k amt

/-- One iteration of the monthly_map loop of financial_summary: a row whose
visit_date yields no month key is skipped, the rest are accumulated. -/
def monthlyStep (m : List MonthBucket) (v : VisitHistoryDB) : List MonthBucket :=
  match month_key_from_string (some v.visit_date) with
  | none => m
  | some k => addMonthly m k v.payment_amount

/-- The monthly_map loop of financial_summary over all visit rows. -/
def monthlyMapOf (visits : List VisitHistoryDB) : List MonthBucket :=
  visits.foldl monthlyStep []

/-- Ordering of month buckets by key, the sorted() of financial_summary. -/
def monthLE (a b : MonthBucket) : Prop := strLeb a.month b.month = true

instance : DecidableRel monthLE := fun a b =>
  inferInstanceAs (Decidable (_ = true))

instance : IsTotal MonthBucket monthLE :=
  ⟨fun x y => lexLeb_total x.month.data y.month.data⟩

instance : IsTrans MonthBucket monthLE :=
  ⟨fun _ _ _ h h2 => lexLeb_trans _ _ _ h h2⟩

/-- Result record of financial_summary (the parts under verification). -/
structure FinancialSummary where
  total_amount : ℚ
  total_visits : Nat
  monthly_revenue : List MonthBucket
deriving DecidableEq, Repr

/-- statistics.financial_summary: sum and count over the visits table, and
the per-month rollup sorted by month key with revenue rounded to 2 decimals. -/
def financial_summary (visits : List VisitHistoryDB) : FinancialSummary :=
  { total_amount := pyRound2 ((visits.map (fun v => v.payment_amount)).sum)
    total_visits := visits.length
    monthly_revenue :=
      (List.insertionSort monthLE (monthlyMapOf visits)).map
        (fun b => ⟨b.month, pyRound2 b.revenue, b.visit_count⟩) }

/-! ## statistics.py: operational_summary -/

/-- Group-by key of a queue status row: empty statuses display as Unknown. -/
def statusKey (s : String) : String := if s = "" then "Unknown" else s

/-- Dict bump for the status_counts map. -/
def bumpCount : List (String × Nat) → String → List (String × Nat)
  | [], k => [(k, 1)]
  | p :: rest, k => if p.1 == k then (p.1, p.2 + 1) :: rest else p :: bumpCount rest k

/-- Dict lookup with default 0 (Python dict.get(k, 0)). -/
def lookupCount : List (String × Nat) → String → Nat
  | [], _ => 0
  | p :: rest, k => if p.1 == k then p.2 else lookupCount rest k

/-- status_counts of operational_summary: row count per status string. -/
def statusCounts (qs : List QueueDB) : List (String × Nat) :=
  qs.foldl (fun m q => bumpCount m (statusKey q.status)) []

/-- total_queues of operational_summary: the sum of the per-status counts. -/
def totalQueues (qs : List QueueDB) : Nat :=
  ((statusCounts qs).map (fun p => p.2)).sum

/-- no_show_rate_percent of operational_summary: cancelled share of all
rows as a rounded percentage, 0.0 for an empty table. -/
def noShowRate (qs : List QueueDB) : ℚ :=
  let total := totalQueues qs
  let no_show := lookupCount (statusCounts qs) "dibatalkan"
  if 0 < total then pyRound2 (((no_show : ℚ) / (total : ℚ)) * 100) else 0

/-- The wait-time / service-duration loop of operational_summary: one pass
over the queue rows appending (service_start - registration) when both
parse and start is not before registration, and (service_end -
service_start) when both parse and end is not before start. -/
def durationLists (fi : String → Option Int) : List QueueDB → List Int × List Int
  | [] => ([], [])
  | q :: rest =>
    let reg := parse_iso fi (some q.registration_time)
    let start := parse_iso fi q.service_start_time
    let stop := parse_iso fi q.service_end_time
    let tail := durationLists fi rest
    let withWait :=
      match reg, start with
      | some r, some s => if r ≤ s then (s - r) :: tail.1 else tail.1
      | _, _ => tail.1
    let withService :=
      match start, stop with
      | some s, some e => if s ≤ e then (e - s) :: tail.2 else tail.2
      | _, _ => tail.2
    (withWait, withService)

/-! ## Helper lemmas: decimal strings -/

/-- Decimal value of a digit list (leading garbage-free accumulation). -/
def listVal (l : List Char) : Nat :=
  l.foldl (fun a c => 10 * a + (c.toNat - 48)) 0

theorem digitChar_toNat (d : Nat) (h : d < 10) : (digitChar d).toNat = 48 + d := by
  interval_cases d <;> decide

theorem digitChar_isDigit (d : Nat) (h : d < 10) : (digitChar d).isDigit = true := by
  interval_cases d <;> decide

theorem decAux_foldl : ∀ fuel n a, n ≤ fuel →
    List.foldl (fun x c => 10 * x + (c.toNat - 48)) a (decAux fuel n) =
      a * 10 ^ (decAux fuel n).length + n := by
  intro fuel
  induction fuel with
  | zero => intro n a h; interval_cases n; simp [decAux]
  | succ fuel ih =>
    intro n a h
    by_cases hn : n = 0
    · subst hn; simp [decAux]
    · have hdiv : n / 10 ≤ fuel := by
        have h1 : n / 10 < n := Nat.div_lt_self (Nat.pos_of_ne_zero hn) (by norm_num)
        omega
      have hmod : n % 10 < 10 := Nat.mod_lt _ (by norm_num)
      simp only [decAux, if_neg hn, List.foldl_append, List.length_append,
        List.foldl_cons, List.foldl_nil, List.length_cons, List.length_nil]
      rw [ih (n / 10) a hdiv, digitChar_toNat _ hmod]
      have : 48 + n % 10 - 48 = n % 10 := by omega
      rw [this, pow_succ]
      have := Nat.div_add_mod n 10
      ring_nf
      omega

theorem listVal_decStr (n : Nat) : listVal (decStr n).data = n := by
  by_cases hn : n = 0
  · subst hn; decide
  · unfold decStr listVal
    rw [if_neg hn]
    have := decAux_foldl n n 0 (le_refl n)
    simpa using this

theorem listVal_replicate_zero (k : Nat) (l : List Char) :
    listVal (List.replicate k '0' ++ l) = listVal l := by
  unfold listVal
  rw [List.foldl_append]
  congr 1
  induction k with
  | zero => rfl
  | succ k ih => rw [List.replicate_succ, List.foldl_cons]; simpa using ih

theorem listVal_pad3 (n : Nat) : listVal (pad3 n).data = n := by
  unfold pad3
  by_cases h : (decStr n).length < 3
  · rw [if_pos h]
    rw [String.data_append]
    show listVal (List.replicate (3 - (decStr n).length) '0' ++ (decStr n).data) = n
    rw [listVal_replicate_zero]
    exact listVal_decStr n
  · rw [if_neg h]; exact listVal_decStr n

theorem pad3_injective {a b : Nat} (h : pad3 a = pad3 b) : a = b := by
  have := congrArg (fun s => listVal s.data) h
  simpa [listVal_pad3] using this

theorem append_pad3_injective (p : String) {a b : Nat}
    (h : p ++ pad3 a = p ++ pad3 b) : a = b := by
  have hd := congrArg String.data h
  rw [String.data_append, String.data_append] at hd
  have := List.append_cancel_left hd
  exact pad3_injective (String.ext this)

theorem decAux_all_digits : ∀ fuel n, (decAux fuel n).all Char.isDigit = true := by
  intro fuel
  induction fuel with
  | zero => intro n; rfl
  | succ fuel ih =>
    intro n
    by_cases hn : n = 0
    · subst hn; rfl
    · simp only [decAux, if_neg hn, List.all_append, List.all_cons, List.all_nil,
        Bool.and_true, Bool.and_eq_true]
      exact ⟨ih (n / 10), digitChar_isDigit _ (Nat.mod_lt _ (by norm_num))⟩

theorem pad3_all_digits (n : Nat) : (pad3 n).data.all Char.isDigit = true := by
  have hdec : (decStr n).data.all Char.isDigit = true := by
    by_cases hn : n = 0
    · subst hn; decide
    · unfold decStr; rw [if_neg hn]; exact decAux_all_digits n n
  unfold pad3
  by_cases hlt : (decStr n).length < 3
  · rw [if_pos hlt]
    rw [String.data_append]
    rw [List.all_append, hdec, Bool.and_true]
    show (List.replicate (3 - (decStr n).length) '0').all Char.isDigit = true
    rw [List.all_eq_true]
    intro c hc
    rw [List.eq_of_mem_replicate hc]
    decide
  · rw [if_neg hlt]; exact hdec

/-! ## Helper lemmas: strings and rounding -/

theorem pyTake_or (s : String) :
    (if pyTake s 3 = "" then s else pyTake s 3) = pyTake s 3 := by
  by_cases h : pyTake s 3 = ""
  · rw [if_pos h]
    have : s.data.take 3 = [] := congrArg String.data h
    rw [List.take_eq_nil_iff] at this
    rcases this with h3 | hnil
    · omega
    · apply String.ext
      show s.data = (s.data.take 3)
      rw [hnil]
      simp
  · rw [if_neg h]

/-- Python round(x, 2) is the identity scaled back when x * 100 is an exact
integer. -/
theorem pyRound2_intMul (x : ℚ) (m : ℤ) (h : x * 100 = (m : ℚ)) :
    pyRound2 x = (m : ℚ) / 100 := by
  unfold pyRound2
  rw [h]
  simp only [Rat.floor_def']
  simp

/-! ## Helper lemmas: anatomy of a successful create_queue -/

theorem create_queue_ok (db : DB) (f now pid pname cid : String)
    (did : Option String) (q : QueueDB) (db2 : DB)
    (h : create_queue db f now pid pname cid did = .ok (q, db2)) :
    ∃ c, db.clinics.find? (fun x => x.id == cid) = some c ∧ c.is_active = true ∧
      q.queue_number = pyUpper (pyTake c.name 3) ++ pad3 (countClinic db cid + 1) ∧
      q.id = f ∧ q.clinic_id = cid ∧ q.clinic_name = c.name ∧
      q.status = "menunggu" ∧ q.registration_time = now ∧
      q.called_time = none ∧ q.service_start_time = none ∧ q.service_end_time = none ∧
      db2.clinics = db.clinics ∧ db2.doctors = db.doctors ∧
      db2.queues = db.queues ++ [q] ∧ db2.visits = db.visits := by
  unfold create_queue at h
  cases hc : db.clinics.find? (fun x => x.id == cid) with
  | none => rw [hc] at h; simp at h
  | some c =>
    rw [hc] at h
    dsimp only at h
    by_cases ha : c.is_active = false
    · rw [if_pos ha] at h; simp at h
    · rw [if_neg ha] at h
      cases hd : doctorCheck db cid did with
      | error e => rw [hd] at h; simp at h
      | ok dn =>
        rw [hd] at h
        dsimp only at h
        simp only [Except.ok.injEq, Prod.mk.injEq] at h
        obtain ⟨hq, hdb⟩ := h
        refine ⟨c, rfl, by revert ha; cases c.is_active <;> simp, ?_⟩
        subst hq
        subst hdb
        rw [pyTake_or]
        simp [QueueStatus.value]

/-! ## C1 -/

/-- C1: a successful queue creation (clinic exists and is active; any
requested doctor exists, is available and belongs to the clinic) produces a
record whose queue_number is the first three letters of the clinic name
uppercased followed by the count of existing queues of that clinic plus
one, zero-padded to width 3; whose status is waiting (stored value
menunggu); whose registration_time is the current-time ISO string; and
whose called_time, service_start_time and service_end_time are all null. -/
theorem C1_create_queue_record (db : DB) (f now pid pname cid : String)
    (did : Option String) (q : QueueDB) (db2 : DB)
    (h : create_queue db f now pid pname cid did = .ok (q, db2)) :
    ∃ c, db.clinics.find? (fun x => x.id == cid) = some c ∧ c.is_active = true ∧
      q.queue_number = pyUpper (pyTake c.name 3) ++ pad3 (countClinic db cid + 1) ∧
      q.status = QueueStatus.waiting.value ∧ q.registration_time = now ∧
      q.called_time = none ∧ q.service_start_time = none ∧ q.service_end_time = none := by
  obtain ⟨c, hc, ha, hqn, _, _, _, hs, hr, h1, h2, h3, _⟩ :=
    create_queue_ok db f now pid pname cid did q db2 h
  exact ⟨c, hc, ha, hqn, hs, hr, h1, h2, h3⟩

/-- Concrete store for the C1 witness: one active clinic, nothing else. -/
def dbW1 : DB :=
  { clinics := [{ id := "c1", name := "Alpha", description := none, is_active := true }]
    doctors := []
    queues := []
    visits := [] }

/-- The queue record the C1 witness creation produces. -/
def qW1 : QueueDB :=
  { id := "uuid-1"
    queue_number := "ALP001"
    patient_id := "p1"
    patient_name := "Budi"
    clinic_id := "c1"
    clinic_name := "Alpha"
    doctor_id := none
    doctor_name := none
    status := "menunggu"
    registration_time := "2025-01-01T08:00:00"
    called_time := none
    service_start_time := none
    service_end_time := none
    notes := none }

/-- C1 witness: the theorem applied to a concrete successful creation. -/
theorem C1_witness :
    ∃ c, dbW1.clinics.find? (fun x => x.id == "c1") = some c ∧ c.is_active = true ∧
      qW1.queue_number = pyUpper (pyTake c.name 3) ++ pad3 (countClinic dbW1 "c1" + 1) ∧
      qW1.status = QueueStatus.waiting.value ∧
      qW1.registration_time = "2025-01-01T08:00:00" ∧
      qW1.called_time = none ∧ qW1.service_start_time = none ∧
      qW1.service_end_time = none :=
  C1_create_queue_record dbW1 "uuid-1" "2025-01-01T08:00:00" "p1" "Budi" "c1" none
    qW1 { dbW1 with queues := [qW1] } rfl

/-! ## C10 -/

/-- C10 (amended): for a successful creation on a clinic whose name is
shorter than three characters, the name[:3] slice is the whole name, so
the queue_number prefix is the entire clinic name uppercased rather than
three letters, and for a clinic with an empty name the prefix is empty, so
the resulting queue_number may consist of digits only. No six-character
bound on the queue_number holds in the program: the numeric part grows
beyond three digits from the 999th existing queue on (the counterexample),
and Python's full-case uppercasing can itself lengthen the prefix beyond
the clinic name (the German sharp s uppercases to SS). -/
theorem C10_short_name_prefix (db : DB) (f now pid pname cid : String)
    (did : Option String) (q : QueueDB) (db2 : DB)
    (h : create_queue db f now pid pname cid did = .ok (q, db2)) :
    ∀ c, db.clinics.find? (fun x => x.id == cid) = some c → c.name.length < 3 →
      q.queue_number = pyUpper c.name ++ pad3 (countClinic db cid + 1) ∧
      (c.name = "" → q.queue_number.data.all Char.isDigit = true) := by
  intro c hc hlen
  obtain ⟨c2, hc2, _, hqn, _⟩ := create_queue_ok db f now pid pname cid did q db2 h
  rw [hc] at hc2
  injection hc2 with hcc
  subst hcc
  have htake : pyTake c.name 3 = c.name := by
    apply String.ext
    show c.name.data.take 3 = c.name.data
    exact List.take_of_length_le (by exact Nat.le_of_lt (by exact hlen))
  rw [htake] at hqn
  refine ⟨hqn, ?_⟩
  intro hname
  rw [hqn, hname]
  show ((pyUpper "" ++ pad3 (countClinic db cid + 1)).data.all Char.isDigit) = true
  rw [String.data_append]
  have : (pyUpper "").data = [] := rfl
  rw [this, List.nil_append]
  exact pad3_all_digits _

/-- Clinic store for the C10 witness: a two-letter clinic name, no queues. -/
def dbW10 : DB :=
  { clinics := [{ id := "c2", name := "ab", description := none, is_active := true }]
    doctors := []
    queues := []
    visits := [] }

/-- The queue record the C10 witness creation produces. -/
def qW10 : QueueDB :=
  { id := "uuid-2"
    queue_number := "AB001"
    patient_id := "p2"
    patient_name := "Sari"
    clinic_id := "c2"
    clinic_name := "ab"
    doctor_id := none
    doctor_name := none
    status := "menunggu"
    registration_time := "2025-01-02T08:00:00"
    called_time := none
    service_start_time := none
    service_end_time := none
    notes := none }

/-- C10 witness: the amended theorem applied to a concrete creation on the
two-letter clinic. -/
theorem C10_witness :
    qW10.queue_number =
        pyUpper (ClinicDB.name { id := "c2", name := "ab", description := none, is_active := true }) ++
          pad3 (countClinic dbW10 "c2" + 1) ∧
      (ClinicDB.name { id := "c2", name := "ab", description := none, is_active := true } = "" →
        qW10.queue_number.data.all Char.isDigit = true) :=
  C10_short_name_prefix dbW10 "uuid-2" "2025-01-02T08:00:00" "p2" "Sari" "c2" none
    qW10 { dbW10 with queues := [qW10] } rfl
    { id := "c2", name := "ab", description := none, is_active := true } rfl (by decide)

/-- Filler queue row for the C10 counterexample store. -/
def qFill : QueueDB :=
  { id := "fill"
    queue_number := "AB001"
    patient_id := "p"
    patient_name := "P"
    clinic_id := "cA"
    clinic_name := "AB"
    doctor_id := none
    doctor_name := none
    status := "selesai"
    registration_time := "2024-01-01T00:00:00"
    called_time := none
    service_start_time := none
    service_end_time := none
    notes := none }

/-- Store with a two-letter clinic that already has 999 queue rows. -/
def dbBig : DB :=
  { clinics := [{ id := "cA", name := "AB", description := none, is_active := true }]
    doctors := []
    queues := List.replicate 999 qFill
    visits := [] }

/-- The record the 1000th creation on the two-letter clinic produces. -/
def qBig : QueueDB :=
  { id := "uuid-big"
    queue_number := "AB1000"
    patient_id := "p"
    patient_name := "P"
    clinic_id := "cA"
    clinic_name := "AB"
    doctor_id := none
    doctor_name := none
    status := "menunggu"
    registration_time := "2025-01-03T08:00:00"
    called_time := none
    service_start_time := none
    service_end_time := none
    notes := none }

set_option maxRecDepth 100000 in
/-- C10 counterexample: on a clinic named AB that already has 999 queues, a
successful creation yields queue_number AB1000, which is six characters
long, refuting that every queue_number of a short-named clinic is shorter
than six characters. -/
theorem C10_counterexample :
    create_queue dbBig "uuid-big" "2025-01-03T08:00:00" "p" "P" "cA" none =
        .ok (qBig, { dbBig with queues := List.replicate 999 qFill ++ [qBig] }) ∧
      qBig.queue_number = "AB1000" ∧ ¬(qBig.queue_number.length < 6) := by
  refine ⟨rfl, rfl, by decide⟩

/-! ## C3 -/

theorem countClinic_append_self (db : DB) (cid : String) (q : QueueDB)
    (hq : q.clinic_id = cid) :
    (List.filter (fun r => r.clinic_id == cid) (db.queues ++ [q])).length =
      countClinic db cid + 1 := by
  rw [List.filter_append]
  rw [List.length_append]
  unfold countClinic
  congr 1
  simp [List.filter, hq]

theorem runOps_all_creates (cid : String) : ∀ ops : List QOp, ∀ db : DB,
    (∀ op ∈ ops, isCreateFor cid op) →
    ∃ k, (runOps db ops).2 =
      (List.range k).map (fun i => clinicPfx db cid ++ pad3 (countClinic db cid + 1 + i)) := by
  intro ops
  induction ops with
  | nil => intro db _; exact ⟨0, rfl⟩
  | cons op rest ih =>
    intro db hall
    have hop := hall op (List.mem_cons_self op rest)
    have hrest : ∀ o ∈ rest, isCreateFor cid o :=
      fun o ho => hall o (List.mem_cons_of_mem op ho)
    cases op with
    | qdelete qid => exact absurd hop (by simp [isCreateFor])
    | qcreate f n pid pn cid2 did =>
      have hcid : cid2 = cid := hop
      subst hcid
      cases hcr : create_queue db f n pid pn cid2 did with
      | error e =>
        obtain ⟨k, hk⟩ := ih db hrest
        refine ⟨k, ?_⟩
        simpa [runOps, hcr] using hk
      | ok pair =>
        obtain ⟨q, db2⟩ := pair
        obtain ⟨c, hc, _, hqn, _, hqcid, _, _, _, _, _, _, hcl, _, hqs, _⟩ :=
          create_queue_ok db f n pid pn cid2 did q db2 hcr
        have hpfx : clinicPfx db cid2 = pyUpper (pyTake c.name 3) := by
          unfold clinicPfx
          rw [hc]
          dsimp only
          rw [pyTake_or]
        have hcnt2 : countClinic db2 cid2 = countClinic db cid2 + 1 := by
          show (List.filter (fun r => r.clinic_id == cid2) db2.queues).length = _
          rw [hqs]
          exact countClinic_append_self db cid2 q hqcid
        have hpfx2 : clinicPfx db2 cid2 = clinicPfx db cid2 := by
          unfold clinicPfx
          rw [hcl]
        obtain ⟨k, hk⟩ := ih db2 hrest
        refine ⟨k + 1, ?_⟩
        have hrun : (runOps db (QOp.qcreate f n pid pn cid2 did :: rest)).2 =
            q.queue_number :: (runOps db2 rest).2 := by
          simp [runOps, hcr]
        rw [hrun, hk, hqn, List.range_succ_eq_map, List.map_cons, List.map_map]
        congr 1
        · rw [hpfx, Nat.add_zero]
        · apply List.map_congr_left
          intro i _
          simp only [Function.comp_apply]
          rw [hpfx2, hcnt2]
          congr 1
          congr 1
          omega

/-- C3 (amended): running any sequence of queue creations for one clinic
with no concurrent writers and no interleaved deletions assigns exactly the
queue numbers prefix-plus-pad3 of consecutive counters count+1, count+2,
..., so the numeric suffixes are strictly increasing and the assigned
numbers are pairwise distinct. Interleaving a deletion of one of the
clinic's queues lowers the row count the next number is derived from and a
previously assigned number is reissued (see the counterexample). -/
theorem C3_creation_numbers (db : DB) (cid : String) (ops : List QOp)
    (h : ∀ op ∈ ops, isCreateFor cid op) :
    ∃ k, (runOps db ops).2 =
        (List.range k).map (fun i => clinicPfx db cid ++ pad3 (countClinic db cid + 1 + i)) ∧
      (runOps db ops).2.Nodup := by
  obtain ⟨k, hk⟩ := runOps_all_creates cid ops db h
  refine ⟨k, hk, ?_⟩
  rw [hk]
  refine List.Nodup.map ?_ (List.nodup_range k)
  intro i j hij
  have := append_pad3_injective (clinicPfx db cid) hij
  omega

/-- Store for the C3 witness: one active clinic, no queues. -/
def dbW3 : DB :=
  { clinics := [{ id := "cW", name := "Gigi", description := none, is_active := true }]
    doctors := []
    queues := []
    visits := [] }

/-- Trace for the C3 witness: two creations for the clinic, no deletions. -/
def opsW3 : List QOp :=
  [QOp.qcreate "u1" "2025-02-01T08:00:00" "p1" "Andi" "cW" none,
   QOp.qcreate "u2" "2025-02-01T08:05:00" "p2" "Sinta" "cW" none]

/-- C3 witness: the amended theorem applied to the concrete two-creation
trace. -/
theorem C3_witness :
    ∃ k, (runOps dbW3 opsW3).2 =
        (List.range k).map (fun i => clinicPfx dbW3 "cW" ++ pad3 (countClinic dbW3 "cW" + 1 + i)) ∧
      (runOps dbW3 opsW3).2.Nodup :=
  C3_creation_numbers dbW3 "cW" opsW3 (by decide)

/-- Store for the C3 counterexample: one active clinic named Alpha. -/
def dbC3 : DB :=
  { clinics := [{ id := "c1", name := "Alpha", description := none, is_active := true }]
    doctors := []
    queues := []
    visits := [] }

/-- Trace for the C3 counterexample: create, create, delete the first,
create again. -/
def opsC3 : List QOp :=
  [QOp.qcreate "q1" "2025-03-01T08:00:00" "p1" "A" "c1" none,
   QOp.qcreate "q2" "2025-03-01T08:01:00" "p2" "B" "c1" none,
   QOp.qdelete "q1",
   QOp.qcreate "q3" "2025-03-01T08:02:00" "p3" "C" "c1" none]

/-- C3 counterexample: with a deletion interleaved between creations the
trace assigns ALP001, ALP002, ALP002 - the third creation reissues the
number of the still-live second queue, so the assigned numbers are neither
strictly increasing nor unique. -/
theorem C3_counterexample :
    (runOps dbC3 opsC3).2 = ["ALP001", "ALP002", "ALP002"] ∧
      ¬(runOps dbC3 opsC3).2.Nodup := by
  have h : (runOps dbC3 opsC3).2 = ["ALP001", "ALP002", "ALP002"] := rfl
  exact ⟨h, by rw [h]; decide⟩

/-! ## C5 -/

/-- C5 (amended): creating a queue fails with the validation error when the
clinic is missing or inactive; creating a doctor checks only that the
clinic EXISTS - it fails when the clinic is missing but succeeds under an
inactive clinic (the is_active flag is never consulted by create_doctor). -/
theorem C5_inactive_clinic (db : DB) (f now pid pname name spc phone cid : String)
    (did : Option String) :
    (db.clinics.find? (fun x => x.id == cid) = none →
        create_doctor db name spc cid phone = .error "Klinik tidak ditemukan" ∧
        create_queue db f now pid pname cid did =
          .error "Klinik tidak ditemukan atau tidak aktif") ∧
    (∀ c, db.clinics.find? (fun x => x.id == cid) = some c →
        (∃ d db2, create_doctor db name spc cid phone = .ok (d, db2)) ∧
        (c.is_active = false →
          create_queue db f now pid pname cid did =
            .error "Klinik tidak ditemukan atau tidak aktif")) := by
  constructor
  · intro hnone
    constructor
    · unfold create_doctor
      rw [hnone]
    · unfold create_queue
      rw [hnone]
  · intro c hc
    constructor
    · unfold create_doctor
      rw [hc]
      dsimp only
      exact ⟨_, _, rfl⟩
    · intro hinactive
      unfold create_queue
      rw [hc]
      dsimp only
      rw [if_pos hinactive]

/-- Store with a single INACTIVE clinic. -/
def dbInact : DB :=
  { clinics := [{ id := "c1", name := "Klinik Tutup", description := none, is_active := false }]
    doctors := []
    queues := []
    visits := [] }

/-- C5 witness: on the concrete inactive clinic, doctor creation succeeds
while queue creation fails with the validation error. -/
theorem C5_witness :
    (∃ d db2, create_doctor dbInact "Dr. Budi" "Umum" "c1" "0812" = .ok (d, db2)) ∧
      create_queue dbInact "u1" "2025-04-01T08:00:00" "p1" "Eka" "c1" none =
        .error "Klinik tidak ditemukan atau tidak aktif" := by
  have h := (C5_inactive_clinic dbInact "u1" "2025-04-01T08:00:00" "p1" "Eka"
    "Dr. Budi" "Umum" "0812" "c1" none).2
    { id := "c1", name := "Klinik Tutup", description := none, is_active := false } rfl
  exact ⟨h.1, h.2 rfl⟩

/-- The doctor record created under the inactive clinic. -/
def docInact : DoctorDB :=
  { id := "doctor-001"
    name := "Dr. Budi"
    specialization := "Umum"
    clinic_id := "c1"
    clinic_name := some "Klinik Tutup"
    phone := "0812"
    is_available := true }

/-- C5 counterexample: the only clinic of the store is inactive, yet
create_doctor returns a successful result instead of a validation error,
refuting that doctor creation under an inactive clinic fails. -/
theorem C5_counterexample :
    (dbInact.clinics.map (fun c => c.is_active)) = [false] ∧
      create_doctor dbInact "Dr. Budi" "Umum" "c1" "0812" =
        .ok (docInact, { dbInact with doctors := [docInact] }) :=
  ⟨rfl, rfl⟩

/-! ## C7 -/

/-- C7: every call of the visit recorder appends a record whose visit_date
is today's date-only string (the queue's completion timestamp is never
consulted) and whose appointment_status is Completed, and it succeeds on
EVERY store state - in particular also when db.visits already holds a
record for the same queue_id and when the referenced queue is not in
completed state, since create_visit performs no lookup of queues or visits
at all. -/
theorem C7_create_visit (db : DB) (f today qid pid pname cid cname did dname rsn : String)
    (amt : ℚ) (mop moa : String) :
    (create_visit db f today qid pid pname cid cname did dname rsn amt mop moa).1.visit_date
        = today ∧
      (create_visit db f today qid pid pname cid cname did dname rsn amt mop moa).1.queue_id
        = qid ∧
      (create_visit db f today qid pid pname cid cname did dname rsn amt mop moa).1.appointment_status
        = "Completed" ∧
      (create_visit db f today qid pid pname cid cname did dname rsn amt mop moa).2.visits
        = db.visits ++
          [(create_visit db f today qid pid pname cid cname did dname rsn amt mop moa).1] ∧
      (create_visit db f today qid pid pname cid cname did dname rsn amt mop moa).2.queues
        = db.queues :=
  ⟨rfl, rfl, rfl, rfl, rfl⟩

/-! ## C2 helper lemmas -/

/-- The kwargs keys the spec's transition merges (doctor reassignment and
notes). -/
def mergeKeysOK (kw : List (String × Option String)) : Prop :=
  ∀ p ∈ kw, p.1 = "doctor_id" ∨ p.1 = "doctor_name" ∨ p.1 = "notes"

theorem setField_merge_fields (q : QueueDB) (k v : String)
    (hk : k = "doctor_id" ∨ k = "doctor_name" ∨ k = "notes") :
    (setField q k v).called_time = q.called_time ∧
      (setField q k v).service_start_time = q.service_start_time ∧
      (setField q k v).service_end_time = q.service_end_time ∧
      (setField q k v).registration_time = q.registration_time ∧
      (setField q k v).id = q.id := by
  rcases hk with h | h | h <;> subst h <;>
    simp [setField]

theorem applyKwargs_merge_fields (kw : List (String × Option String)) :
    ∀ q : QueueDB, mergeKeysOK kw →
    (applyKwargs q kw).called_time = q.called_time ∧
      (applyKwargs q kw).service_start_time = q.service_start_time ∧
      (applyKwargs q kw).service_end_time = q.service_end_time ∧
      (applyKwargs q kw).registration_time = q.registration_time ∧
      (applyKwargs q kw).id = q.id := by
  induction kw with
  | nil => intro q _; exact ⟨rfl, rfl, rfl, rfl, rfl⟩
  | cons p rest ih =>
    intro q hok
    have hp := hok p (List.mem_cons_self p rest)
    have hrest : mergeKeysOK rest := fun x hx => hok x (List.mem_cons_of_mem p hx)
    obtain ⟨k, v⟩ := p
    cases v with
    | none =>
      show (applyKwargs q rest).called_time = q.called_time ∧ _
      exact ih q hrest
    | some v =>
      have hstep :
          applyKwargs q ((k, some v) :: rest) = applyKwargs (setField q k v) rest := rfl
      rw [hstep]
      obtain ⟨h1, h2, h3, h4, h5⟩ := setField_merge_fields q k v hp
      obtain ⟨g1, g2, g3, g4, g5⟩ := ih (setField q k v) hrest
      exact ⟨g1.trans h1, g2.trans h2, g3.trans h3, g4.trans h4, g5.trans h5⟩

theorem find?_replaceFirst (l : List QueueDB) (qid : String) (q r : QueueDB)
    (h : l.find? (fun x => x.id == qid) = some r) (hq : q.id = qid) :
    (replaceFirst l qid q).find? (fun x => x.id == qid) = some q := by
  induction l with
  | nil => simp at h
  | cons x rest ih =>
    by_cases hx : (x.id == qid) = true
    · unfold replaceFirst
      rw [if_pos hx]
      simp [List.find?, hq]
    · have hxf : (x.id == qid) = false := by simpa using hx
      unfold replaceFirst
      rw [if_neg hx]
      simp only [List.find?, hxf] at h ⊢
      exact ih h

theorem update_queue_status_eq (db : DB) (now qid : String) (st : QueueStatus)
    (kw : List (String × Option String)) (q0 : QueueDB)
    (hfind : db.queues.find? (fun r => r.id == qid) = some q0) :
    update_queue_status db now qid st kw =
      some (applyKwargs (transitionStamp q0 now st) kw,
            { db with queues :=
                replaceFirst db.queues qid (applyKwargs (transitionStamp q0 now st) kw) }) := by
  unfold update_queue_status
  rw [hfind]

theorem transitionStamp_in_service (q0 : QueueDB) (now : String) :
    (transitionStamp q0 now QueueStatus.in_service).called_time
        = (if pyTruthy q0.called_time then q0.called_time else some now) ∧
      (transitionStamp q0 now QueueStatus.in_service).service_start_time
        = (if pyTruthy q0.service_start_time then q0.service_start_time else some now) ∧
      (transitionStamp q0 now QueueStatus.in_service).service_end_time
        = q0.service_end_time ∧
      (transitionStamp q0 now QueueStatus.in_service).registration_time
        = q0.registration_time ∧
      (transitionStamp q0 now QueueStatus.in_service).id = q0.id := by
  by_cases h1 : pyTruthy q0.called_time = true <;>
    by_cases h2 : pyTruthy q0.service_start_time = true <;>
      simp [transitionStamp, h1, h2]

theorem transitionStamp_completed (q0 : QueueDB) (now : String) :
    (transitionStamp q0 now QueueStatus.completed).service_end_time = some now ∧
      (transitionStamp q0 now QueueStatus.completed).called_time = q0.called_time ∧
      (transitionStamp q0 now QueueStatus.completed).service_start_time
        = q0.service_start_time ∧
      (transitionStamp q0 now QueueStatus.completed).registration_time
        = q0.registration_time ∧
      (transitionStamp q0 now QueueStatus.completed).id = q0.id := by
  simp [transitionStamp]

theorem transitionStamp_other (q0 : QueueDB) (now : String) (st : QueueStatus)
    (h : st = QueueStatus.waiting ∨ st = QueueStatus.cancelled) :
    (transitionStamp q0 now st).called_time = q0.called_time ∧
      (transitionStamp q0 now st).service_start_time = q0.service_start_time ∧
      (transitionStamp q0 now st).service_end_time = q0.service_end_time ∧
      (transitionStamp q0 now st).registration_time = q0.registration_time ∧
      (transitionStamp q0 now st).id = q0.id := by
  rcases h with h | h <;> subst h <;> simp [transitionStamp]

/-! ## C2 -/

/-- C2: for an existing queue row, transitioning to in_service sets
called_time and service_start_time to now only when each is currently
unset, and a second in_service transition leaves both unchanged;
transitioning to completed overwrites service_end_time with now
unconditionally, on every call; transitioning to waiting or cancelled
changes no timestamp field. kwargs carry only the merge fields the spec
names (doctor reassignment, notes), and now is a non-empty timestamp
string. -/
theorem C2_transition_timestamps (db : DB) (now now2 qid : String)
    (kw kw2 : List (String × Option String)) (q0 : QueueDB)
    (hkw : mergeKeysOK kw) (hkw2 : mergeKeysOK kw2) (hnow : now ≠ "")
    (hfind : db.queues.find? (fun r => r.id == qid) = some q0) :
    (∀ r db2, update_queue_status db now qid QueueStatus.in_service kw = some (r, db2) →
        (q0.called_time = none → r.called_time = some now) ∧
        (∀ t, t ≠ "" → q0.called_time = some t → r.called_time = some t) ∧
        (q0.service_start_time = none → r.service_start_time = some now) ∧
        (∀ t, t ≠ "" → q0.service_start_time = some t → r.service_start_time = some t) ∧
        (∀ r2 db3,
          update_queue_status db2 now2 qid QueueStatus.in_service kw2 = some (r2, db3) →
            r2.called_time = r.called_time ∧
            r2.service_start_time = r.service_start_time)) ∧
      (∀ r db2, update_queue_status db now qid QueueStatus.completed kw = some (r, db2) →
          r.service_end_time = some now) ∧
      (∀ st, (st = QueueStatus.waiting ∨ st = QueueStatus.cancelled) →
        ∀ r db2, update_queue_status db now qid st kw = some (r, db2) →
          r.registration_time = q0.registration_time ∧
          r.called_time = q0.called_time ∧
          r.service_start_time = q0.service_start_time ∧
          r.service_end_time = q0.service_end_time) := by
  refine ⟨?_, ?_, ?_⟩
  · intro r db2 hupd
    rw [update_queue_status_eq db now qid QueueStatus.in_service kw q0 hfind] at hupd
    simp only [Option.some.injEq, Prod.mk.injEq] at hupd
    obtain ⟨hr, hdb2⟩ := hupd
    obtain ⟨hk1, hk2, hk3, hk4, hk5⟩ :=
      applyKwargs_merge_fields kw (transitionStamp q0 now QueueStatus.in_service) hkw
    obtain ⟨ht1, ht2, ht3, ht4, ht5⟩ := transitionStamp_in_service q0 now
    have hrc : r.called_time = (if pyTruthy q0.called_time then q0.called_time else some now) := by
      rw [← hr, hk1, ht1]
    have hrs : r.service_start_time
        = (if pyTruthy q0.service_start_time then q0.service_start_time else some now) := by
      rw [← hr, hk2, ht2]
    have hrid : r.id = q0.id := by rw [← hr, hk5, ht5]
    have hq0id : (q0.id == qid) = true := by
      have := List.find?_some hfind
      simpa using this
    refine ⟨?_, ?_, ?_, ?_, ?_⟩
    · intro hnone
      rw [hrc, hnone]
      simp [pyTruthy]
    · intro t ht hsome
      rw [hrc, hsome]
      simp [pyTruthy, ht]
    · intro hnone
      rw [hrs, hnone]
      simp [pyTruthy]
    · intro t ht hsome
      rw [hrs, hsome]
      simp [pyTruthy, ht]
    · intro r2 db3 hupd2
      have hrtruthy : pyTruthy r.called_time = true := by
        rw [hrc]
        by_cases h1 : pyTruthy q0.called_time = true
        · rw [if_pos h1]; exact h1
        · rw [if_neg h1]; simp [pyTruthy, hnow]
      have hstruthy : pyTruthy r.service_start_time = true := by
        rw [hrs]
        by_cases h1 : pyTruthy q0.service_start_time = true
        · rw [if_pos h1]; exact h1
        · rw [if_neg h1]; simp [pyTruthy, hnow]
      have hfind2 : db2.queues.find? (fun x => x.id == qid) = some r := by
        have hdbq : db2.queues = replaceFirst db.queues qid r := by
          rw [← hdb2]
          dsimp only
          rw [hr]
        rw [hdbq]
        exact find?_replaceFirst db.queues qid r q0 hfind (by rw [hrid]; simpa using hq0id)
      rw [update_queue_status_eq db2 now2 qid QueueStatus.in_service kw2 r hfind2] at hupd2
      simp only [Option.some.injEq, Prod.mk.injEq] at hupd2
      obtain ⟨hr2, _⟩ := hupd2
      obtain ⟨gk1, gk2, _, _, _⟩ :=
        applyKwargs_merge_fields kw2 (transitionStamp r now2 QueueStatus.in_service) hkw2
      obtain ⟨gt1, gt2, _, _, _⟩ := transitionStamp_in_service r now2
      constructor
      · rw [← hr2, gk1, gt1, if_pos hrtruthy]
      · rw [← hr2, gk2, gt2, if_pos hstruthy]
  · intro r db2 hupd
    rw [update_queue_status_eq db now qid QueueStatus.completed kw q0 hfind] at hupd
    simp only [Option.some.injEq, Prod.mk.injEq] at hupd
    obtain ⟨hr, _⟩ := hupd
    obtain ⟨_, _, hk3, _, _⟩ :=
      applyKwargs_merge_fields kw (transitionStamp q0 now QueueStatus.completed) hkw
    obtain ⟨ht1, _⟩ := transitionStamp_completed q0 now
    rw [← hr, hk3, ht1]
  · intro st hst r db2 hupd
    rw [update_queue_status_eq db now qid st kw q0 hfind] at hupd
    simp only [Option.some.injEq, Prod.mk.injEq] at hupd
    obtain ⟨hr, _⟩ := hupd
    obtain ⟨hk1, hk2, hk3, hk4, _⟩ :=
      applyKwargs_merge_fields kw (transitionStamp q0 now st) hkw
    obtain ⟨ht1, ht2, ht3, ht4, _⟩ := transitionStamp_other q0 now st hst
    exact ⟨by rw [← hr, hk4, ht4], by rw [← hr, hk1, ht1],
      by rw [← hr, hk2, ht2], by rw [← hr, hk3, ht3]⟩

/-- Waiting queue row used by the C2 witness. -/
def qW2 : QueueDB :=
  { id := "qx"
    queue_number := "ALP001"
    patient_id := "p"
    patient_name := "N"
    clinic_id := "c1"
    clinic_name := "Alpha"
    doctor_id := none
    doctor_name := none
    status := "menunggu"
    registration_time := "2025-05-01T08:00:00"
    called_time := none
    service_start_time := none
    service_end_time := none
    notes := none }

/-- Store for the C2 witness: the single waiting queue row. -/
def dbW2 : DB :=
  { clinics := [{ id := "c1", name := "Alpha", description := none, is_active := true }]
    doctors := []
    queues := [qW2]
    visits := [] }

/-- C2 witness: the theorem applied to the concrete store with empty
kwargs and the timestamps T1 and T2. -/
theorem C2_witness :
    (∀ r db2,
        update_queue_status dbW2 "T1" "qx" QueueStatus.in_service [] = some (r, db2) →
        (qW2.called_time = none → r.called_time = some "T1") ∧
        (∀ t, t ≠ "" → qW2.called_time = some t → r.called_time = some t) ∧
        (qW2.service_start_time = none → r.service_start_time = some "T1") ∧
        (∀ t, t ≠ "" → qW2.service_start_time = some t → r.service_start_time = some t) ∧
        (∀ r2 db3,
          update_queue_status db2 "T2" "qx" QueueStatus.in_service [] = some (r2, db3) →
            r2.called_time = r.called_time ∧
            r2.service_start_time = r.service_start_time)) ∧
      (∀ r db2,
          update_queue_status dbW2 "T1" "qx" QueueStatus.completed [] = some (r, db2) →
          r.service_end_time = some "T1") ∧
      (∀ st, (st = QueueStatus.waiting ∨ st = QueueStatus.cancelled) →
        ∀ r db2, update_queue_status dbW2 "T1" "qx" st [] = some (r, db2) →
          r.registration_time = qW2.registration_time ∧
          r.called_time = qW2.called_time ∧
          r.service_start_time = qW2.service_start_time ∧
          r.service_end_time = qW2.service_end_time) :=
  C2_transition_timestamps dbW2 "T1" "T2" "qx" [] [] qW2
    (by intro p hp; cases hp) (by intro p hp; cases hp) (by decide) rfl

/-! ## C6 -/

theorem posLoop_eq (qid : String) : ∀ (l : List QueueDB) (n : Nat),
    posLoop qid n l =
      if l.any (fun r => r.id == qid) then n + l.findIdx (fun r => r.id == qid) else 0 := by
  intro l
  induction l with
  | nil => intro n; simp [posLoop]
  | cons r rest ih =>
    intro n
    by_cases hr : (r.id == qid) = true
    · simp [posLoop, hr, List.findIdx_cons]
    · have hrf : (r.id == qid) = false := by simpa using hr
      simp only [posLoop, hrf, if_false, Bool.false_eq_true]
      rw [ih (n + 1)]
      simp only [List.any_cons, hrf, Bool.false_or, List.findIdx_cons, cond_false]
      by_cases ha : rest.any (fun x => x.id == qid) = true
      · rw [if_pos ha, if_pos ha]
        omega
      · rw [if_neg ha, if_neg ha]

/-- C6: get_queue_position returns 0 when the queue id does not exist and
when the row is in any non-waiting status; for a waiting row it returns the
1-based rank of the row in the list of the clinic's waiting rows sorted by
registration_time ascending (the returned index is in range, the list is
sorted by registration_time and is a permutation of the waiting rows of the
clinic). -/
theorem C6_queue_position (db : DB) (qid : String) :
    (db.queues.find? (fun r => r.id == qid) = none → get_queue_position db qid = 0) ∧
      (∀ q, db.queues.find? (fun r => r.id == qid) = some q →
        (q.status ≠ QueueStatus.waiting.value → get_queue_position db qid = 0) ∧
        (q.status = QueueStatus.waiting.value →
          List.Sorted regLE (waitingSorted db q.clinic_id) ∧
          (waitingSorted db q.clinic_id).Perm
            (db.queues.filter
              (fun r => r.clinic_id == q.clinic_id && r.status == QueueStatus.waiting.value)) ∧
          get_queue_position db qid =
            (waitingSorted db q.clinic_id).findIdx (fun r => r.id == qid) + 1 ∧
          (waitingSorted db q.clinic_id).findIdx (fun r => r.id == qid) <
            (waitingSorted db q.clinic_id).length)) := by
  constructor
  · intro h
    unfold get_queue_position
    rw [h]
  · intro q hq
    constructor
    · intro hne
      unfold get_queue_position
      rw [hq]
      dsimp only
      rw [if_pos hne]
    · intro heq
      have hqid : (q.id == qid) = true := by
        have := List.find?_some hq
        simpa using this
      have hmem : q ∈ db.queues := List.mem_of_find?_eq_some hq
      have hfil : q ∈ db.queues.filter
          (fun r => r.clinic_id == q.clinic_id && r.status == QueueStatus.waiting.value) := by
        rw [List.mem_filter]
        refine ⟨hmem, ?_⟩
        simp [heq]
      have hws : q ∈ waitingSorted db q.clinic_id :=
        ((List.perm_insertionSort regLE _).mem_iff).mpr hfil
      have hany : (waitingSorted db q.clinic_id).any (fun r => r.id == qid) = true :=
        List.any_eq_true.mpr ⟨q, hws, hqid⟩
      have hidx : (waitingSorted db q.clinic_id).findIdx (fun r => r.id == qid) <
          (waitingSorted db q.clinic_id).length :=
        List.findIdx_lt_length_of_exists ⟨q, hws, hqid⟩
      refine ⟨List.sorted_insertionSort regLE _, List.perm_insertionSort regLE _, ?_, hidx⟩
      unfold get_queue_position
      rw [hq]
      dsimp only
      rw [if_neg (by simp [heq])]
      rw [posLoop_eq qid _ 1, if_pos hany]
      omega

/-- First waiting queue row for the C6 witness (earlier registration). -/
def qW6a : QueueDB :=
  { id := "w1"
    queue_number := "ALP001"
    patient_id := "p1"
    patient_name := "A"
    clinic_id := "c1"
    clinic_name := "Alpha"
    doctor_id := none
    doctor_name := none
    status := "menunggu"
    registration_time := "2025-06-01T08:00:00"
    called_time := none
    service_start_time := none
    service_end_time := none
    notes := none }

/-- Second waiting queue row for the C6 witness (later registration). -/
def qW6b : QueueDB :=
  { id := "w2"
    queue_number := "ALP002"
    patient_id := "p2"
    patient_name := "B"
    clinic_id := "c1"
    clinic_name := "Alpha"
    doctor_id := none
    doctor_name := none
    status := "menunggu"
    registration_time := "2025-06-01T08:05:00"
    called_time := none
    service_start_time := none
    service_end_time := none
    notes := none }

/-- Store for the C6 witness: two waiting rows of one clinic. -/
def dbW6 : DB :=
  { clinics := [{ id := "c1", name := "Alpha", description := none, is_active := true }]
    doctors := []
    queues := [qW6a, qW6b]
    visits := [] }

/-- C6 witness: the theorem applied to the concrete store - a nonexistent
id gets position 0 and the later waiting row gets its 1-based rank. -/
theorem C6_witness :
    get_queue_position dbW6 "zzz" = 0 ∧
      get_queue_position dbW6 "w2" =
        (waitingSorted dbW6 "c1").findIdx (fun r => r.id == "w2") + 1 := by
  constructor
  · exact (C6_queue_position dbW6 "zzz").1 rfl
  · exact (((C6_queue_position dbW6 "w2").2 qW6b rfl).2 rfl).2.2.1

/-! ## C9 -/

theorem sumCnt_bump (m : List (String × Nat)) (k : String) :
    ((bumpCount m k).map (fun p => p.2)).sum = (m.map (fun p => p.2)).sum + 1 := by
  induction m with
  | nil => simp [bumpCount]
  | cons p rest ih =>
    by_cases hp : (p.1 == k) = true
    · simp [bumpCount, hp]
      omega
    · have hpf : (p.1 == k) = false := by simpa using hp
      simp [bumpCount, hpf, ih]
      omega

theorem lookup_bump (m : List (String × Nat)) (k k2 : String) :
    lookupCount (bumpCount m k2) k =
      lookupCount m k + (if (k2 == k) = true then 1 else 0) := by
  induction m with
  | nil =>
    by_cases hk : (k2 == k) = true <;>
      simp [bumpCount, lookupCount, hk]
  | cons p rest ih =>
    by_cases hp : (p.1 == k2) = true
    · have hpe : p.1 = k2 := by simpa using hp
      by_cases hq : (p.1 == k) = true
      · have hqe : p.1 = k := by simpa using hq
        have : (k2 == k) = true := by subst hpe; exact hq
        simp [bumpCount, lookupCount, hp, hq, this]
      · have hqf : (p.1 == k) = false := by simpa using hq
        have hkk : (k2 == k) = false := by
          subst hpe
          exact hqf
        simp [bumpCount, lookupCount, hp, hqf, hkk]
    · have hpf : (p.1 == k2) = false := by simpa using hp
      by_cases hq : (p.1 == k) = true
      · simp [bumpCount, lookupCount, hpf, hq]
        intro he
        subst he
        simp [hq] at hpf
      · have hqf : (p.1 == k) = false := by simpa using hq
        simp [bumpCount, lookupCount, hpf, hqf, ih]

theorem sumCnt_fold (qs : List QueueDB) : ∀ m : List (String × Nat),
    (((qs.foldl (fun acc q => bumpCount acc (statusKey q.status)) m)).map
        (fun p => p.2)).sum = (m.map (fun p => p.2)).sum + qs.length := by
  induction qs with
  | nil => intro m; simp
  | cons q rest ih =>
    intro m
    rw [List.foldl_cons, ih, sumCnt_bump]
    simp
    omega

theorem lookup_fold (qs : List QueueDB) (k : String) : ∀ m : List (String × Nat),
    lookupCount (qs.foldl (fun acc q => bumpCount acc (statusKey q.status)) m) k =
      lookupCount m k + qs.countP (fun q => statusKey q.status == k) := by
  induction qs with
  | nil => intro m; simp
  | cons q rest ih =>
    intro m
    rw [List.foldl_cons, ih, lookup_bump, List.countP_cons]
    by_cases hq : (statusKey q.status == k) = true <;> simp [hq] <;> omega

theorem totalQueues_eq (qs : List QueueDB) : totalQueues qs = qs.length := by
  unfold totalQueues statusCounts
  rw [sumCnt_fold qs []]
  simp

theorem noShow_count_eq (qs : List QueueDB) :
    lookupCount (statusCounts qs) "dibatalkan" =
      qs.countP (fun q => q.status == "dibatalkan") := by
  unfold statusCounts
  rw [lookup_fold qs "dibatalkan" []]
  have hcp : qs.countP (fun q => statusKey q.status == "dibatalkan") =
      qs.countP (fun q => q.status == "dibatalkan") := by
    induction qs with
    | nil => rfl
    | cons q rest ih =>
      rw [List.countP_cons, List.countP_cons, ih]
      congr 1
      unfold statusKey
      by_cases hq : q.status = ""
      · rw [if_pos hq, hq]
        decide
      · rw [if_neg hq]
  rw [hcp]
  simp [lookupCount]

/-- C9: the no-show rate is the cancelled-row count divided by the total
queue-row count times 100, rounded to 2 decimals; it is 0 when the table is
empty; and for 10 rows of which 3 are cancelled it is exactly 30. -/
theorem C9_no_show_rate (qs : List QueueDB) :
    (qs.length = 0 → noShowRate qs = 0) ∧
      (0 < qs.length →
        noShowRate qs =
          pyRound2 (((qs.countP (fun q => q.status == "dibatalkan") : ℚ) / (qs.length : ℚ))
            * 100)) ∧
      (qs.length = 10 → qs.countP (fun q => q.status == "dibatalkan") = 3 →
        noShowRate qs = 30) := by
  have hrw : noShowRate qs =
      if 0 < qs.length then
        pyRound2 (((qs.countP (fun q => q.status == "dibatalkan") : ℚ) / (qs.length : ℚ)) * 100)
      else 0 := by
    unfold noShowRate
    rw [totalQueues_eq, noShow_count_eq]
  refine ⟨?_, ?_, ?_⟩
  · intro h0
    rw [hrw, h0]
    simp
  · intro hpos
    rw [hrw, if_pos hpos]
  · intro hlen hcnt
    rw [hrw, hlen, hcnt, if_pos (by norm_num)]
    rw [pyRound2_intMul _ 3000 (by norm_num)]
    norm_num

/-- Template queue row for the C9 witness. -/
def mkQ9 (i : Nat) (st : String) : QueueDB :=
  { id := decStr i
    queue_number := "X"
    patient_id := "p"
    patient_name := "n"
    clinic_id := "c"
    clinic_name := "C"
    doctor_id := none
    doctor_name := none
    status := st
    registration_time := "T"
    called_time := none
    service_start_time := none
    service_end_time := none
    notes := none }

/-- Ten queue rows, three of them cancelled, for the C9 witness. -/
def qsW9 : List QueueDB :=
  (List.range 7).map (fun i => mkQ9 i "selesai") ++
    (List.range 3).map (fun i => mkQ9 (7 + i) "dibatalkan")

/-- C9 witness: the theorem applied to the ten-row store with three
cancellations reports a rate of 30. -/
theorem C9_witness : noShowRate qsW9 = 30 :=
  (C9_no_show_rate qsW9).2.2 (by decide) (by decide)

/-! ## C8 -/

/-- C8: the wait-time list and the service-duration list of the
operational summary contain exactly one entry per queue row whose two
boundary timestamps both parse and whose end is not earlier than its
start; a row with a missing or unparseable boundary or an out-of-order
pair contributes nothing and raises no error, for every parser fi. The
wait pair is (registration_time, service_start_time), the service pair is
(service_start_time, service_end_time). -/
theorem C8_duration_policy (fi : String → Option Int) (qs : List QueueDB) :
    durationLists fi qs =
      (qs.filterMap (fun q =>
          match parse_iso fi (some q.registration_time), parse_iso fi q.service_start_time with
          | some r, some s => if r ≤ s then some (s - r) else none
          | _, _ => none),
       qs.filterMap (fun q =>
          match parse_iso fi q.service_start_time, parse_iso fi q.service_end_time with
          | some s, some e => if s ≤ e then some (e - s) else none
          | _, _ => none)) := by
  induction qs with
  | nil => rfl
  | cons q rest ih =>
    simp only [durationLists, List.filterMap_cons]
    rw [ih]
    rcases hreg : parse_iso fi (some q.registration_time) with _ | r <;>
      rcases hstart : parse_iso fi q.service_start_time with _ | s <;>
        rcases hstop : parse_iso fi q.service_end_time with _ | e <;>
          simp [hreg, hstart, hstop] <;> split_ifs <;> simp

/-! ## C4 -/

theorem sumBuckets_addMonthly (m : List MonthBucket) (k : String) (amt : ℚ) :
    ((addMonthly m k amt).map (fun b => b.visit_count)).sum =
      (m.map (fun b => b.visit_count)).sum + 1 := by
  induction m with
  | nil => simp [addMonthly]
  | cons b rest ih =>
    by_cases hb : (b.month == k) = true
    · simp [addMonthly, hb]
      omega
    · have hbf : (b.month == k) = false := by simpa using hb
      simp [addMonthly, hbf, ih]
      omega

theorem monthlyFold_count (visits : List VisitHistoryDB) : ∀ m : List MonthBucket,
    ((visits.foldl monthlyStep m).map (fun b => b.visit_count)).sum =
      (m.map (fun b => b.visit_count)).sum +
        visits.countP (fun v => (month_key_from_string (some v.visit_date)).isSome) := by
  induction visits with
  | nil => intro m; simp
  | cons v rest ih =>
    intro m
    rw [List.foldl_cons, List.countP_cons]
    cases hk : month_key_from_string (some v.visit_date) with
    | none =>
      have hstep : monthlyStep m v = m := by unfold monthlyStep; rw [hk]
      rw [hstep, ih m]
      simp
    | some k =>
      have hstep : monthlyStep m v = addMonthly m k v.payment_amount := by
        unfold monthlyStep; rw [hk]
      rw [hstep, ih (addMonthly m k v.payment_amount), sumBuckets_addMonthly]
      simp
      omega

/-- C4 (amended): the month bucket of a record is the first 7 characters
of its (stripped) date string provided at least 7 remain, so 2025-03-15
buckets under 2025-03 but bad-data buckets under bad-dat rather than being
excluded; only a date string that is missing, empty or shorter than 7
characters is dropped from monthly_revenue; every row, malformed or not,
is counted in total_visits, and the monthly visit counts sum to exactly
the number of rows with a month key, so no malformed row errors the
aggregation. -/
theorem C4_month_bucketing (visits : List VisitHistoryDB) :
    month_key_from_string (some "2025-03-15") = some "2025-03" ∧
      month_key_from_string (some "bad-data") = some "bad-dat" ∧
      month_key_from_string (some "bad") = none ∧
      month_key_from_string (some "") = none ∧
      (financial_summary visits).total_visits = visits.length ∧
      ((financial_summary visits).monthly_revenue.map (fun b => b.visit_count)).sum =
        visits.countP (fun v => (month_key_from_string (some v.visit_date)).isSome) := by
  refine ⟨rfl, rfl, rfl, rfl, rfl, ?_⟩
  show (((List.insertionSort monthLE (monthlyMapOf visits)).map
      (fun b => (⟨b.month, pyRound2 b.revenue, b.visit_count⟩ : MonthBucket))).map
        (fun b => b.visit_count)).sum =
    visits.countP (fun v => (month_key_from_string (some v.visit_date)).isSome)
  rw [List.map_map]
  have hcomp : ((fun b : MonthBucket => b.visit_count) ∘
      (fun b : MonthBucket => (⟨b.month, pyRound2 b.revenue, b.visit_count⟩ : MonthBucket)))
        = fun b : MonthBucket => b.visit_count := rfl
  rw [hcomp]
  have hperm := (List.perm_insertionSort monthLE (monthlyMapOf visits)).map
    (fun b : MonthBucket => b.visit_count)
  rw [hperm.sum_eq]
  have := monthlyFold_count visits []
  simpa [monthlyMapOf] using this

/-- Visit row with the malformed date bad-data, for the C4 counterexample. -/
def vBad : VisitHistoryDB :=
  { id := "v1"
    queue_id := "q1"
    patient_id := "p1"
    patient_name := "A"
    clinic_id := "c1"
    clinic_name := "Alpha"
    doctor_id := "d1"
    doctor_name := "Dr. B"
    visit_date := "bad-data"
    reason := "r"
    payment_amount := 50
    mode_of_payment := "Cash"
    mode_of_appointment := "direct"
    appointment_status := "Completed" }

/-- C4 counterexample: a visit row whose visit_date is bad-data (8
characters) is NOT excluded from monthly_revenue - it appears as the
bucket bad-dat - while also being counted in total_visits, refuting the
claimed exclusion. -/
theorem C4_counterexample :
    (financial_summary [vBad]).total_visits = 1 ∧
      (financial_summary [vBad]).monthly_revenue.map (fun b => b.month) = ["bad-dat"] ∧
      ¬((financial_summary [vBad]).monthly_revenue = []) := by
  refine ⟨rfl, rfl, ?_⟩
  intro hemp
  have h1 : (financial_summary [vBad]).monthly_revenue.length = 1 := rfl
  rw [hemp] at h1
  exact absurd h1 (by decide)

end HQMS
